import Mathlib

/-!
Verification of the charades ("Guesstures") game server.

The repository contains two iterations of the same Express server:
`src/api/index.ts` and a later variant (word-queue / point-revocation
version) found in `src/unnamed/part_002`.  Both act on the same SQLite
data model.  We embed the game rows, the per-game player and word rows,
and the bodies of the HTTP handlers (after the game lookup has
succeeded; `authMiddleware` guarantees a requester id is available, so
handlers take it as an explicit argument even when their body ignores
it).  `ORDER BY RANDOM() LIMIT 1` draws are modelled by a deterministic
pick (`List.find?`) from exactly the candidate set the SQL query
filters; none of the verified claims depend on which candidate is
drawn.  The sampled catalog batch of `/start` is likewise passed in as
an explicit list.  JavaScript quirks are preserved: `idx % 0` on an
empty team yields no player (in JS `NaN` indexing gives `undefined`,
here `List.getElem?` gives `none`), and `req.user?.id === currentActorId`
compares possibly-absent values, two absent values being equal.
-/

/-- A row of `game_players` (the per-game fields; joins carry `username`
but no handler logic depends on it). -/
structure GamePlayer where
  user_id : String
  team : Nat
  turn_order : Nat
deriving DecidableEq, Repr

/-- A row of `game_words`: one word materialized for a specific game. -/
structure GameWord where
  word : String
  guessed : Bool
  guessed_by_team : Option Nat
deriving DecidableEq, Repr

/-- A row of `games`. -/
structure Game where
  id : String
  name : String
  created_by : String
  team1_name : String
  team2_name : String
  team1_score : Int
  team2_score : Int
  current_team : Nat
  current_actor_index_t1 : Nat
  current_actor_index_t2 : Nat
  turn_duration : Nat
  winning_score : Int
  status : String
  current_word : Option String
  turn_started_at : Option String
  share_code : String
deriving DecidableEq, Repr

/-- One game's slice of the database: its `games` row, its
`game_players` rows (in the `ORDER BY team, turn_order` order the
handlers query them) and its `game_words` rows. -/
structure GameState where
  game : Game
  players : List GamePlayer
  words : List GameWord
deriving DecidableEq, Repr

/-- `players.filter(p => p.team === t)` on the ordered player list. -/
def teamPlayers (s : GameState) (t : Nat) : List GamePlayer :=
  s.players.filter (fun p => p.team = t)

/-- The current actor id as computed by `/start-turn`:
`team[counter % team.length]?.user_id`.  On an empty team the JS index
is `NaN` and the result `undefined`; here `getElem?` returns `none`. -/
def currentActorId (s : GameState) : Option String :=
  if s.game.current_team = 1 then
    ((teamPlayers s 1)[s.game.current_actor_index_t1 % (teamPlayers s 1).length]?).map
      (fun p => p.user_id)
  else
    ((teamPlayers s 2)[s.game.current_actor_index_t2 % (teamPlayers s 2).length]?).map
      (fun p => p.user_id)

/-- Result of `/api/games/:id/start`. -/
inductive StartResp
  | onlyCreator
  | success
deriving DecidableEq, Repr

/-- Result of `/api/games/:id/start-turn`. -/
inductive StartTurnResp
  | notYourTurn
  | finished
  | word (w : String) (turn_duration : Nat)
deriving DecidableEq, Repr

/-- Result of `/api/games/:id/correct` (`noWord` is the 404
`Game or word not found` rejection when `current_word` is null). -/
inductive CorrectResp
  | noWord
  | gameOver (winner : Nat)
  | noMoreWords
  | nextWord (w : String)
deriving DecidableEq, Repr

/-- Result of `/api/games/:id/skip` (`noOtherWords` echoes the current
word back, as the handler does). -/
inductive SkipResp
  | noOtherWords (w : Option String)
  | word (w : String)
deriving DecidableEq, Repr

/-- Result of `/api/games/:id/end-turn`. -/
inductive EndTurnResp
  | ok (current_team : Nat)
deriving DecidableEq, Repr

/-- Result of `/api/games/:id/end`. -/
inductive EndResp
  | success
deriving DecidableEq, Repr

/-- `/api/games/:id/start` (identical in both server versions): only the
creator may start; the sampled catalog words (`batch`) are inserted as
unguessed `game_words` rows and the status is set to `playing`.  No
check of game status or team membership is performed, and neither
`current_team` nor the actor counters are touched. -/
def startGame (s : GameState) (requester : String) (batch : List String) :
    GameState × StartResp :=
  if s.game.created_by = requester then
    ({ s with
        game := { s.game with status := "playing" },
        words := s.words ++ batch.map (fun w =>
          { word := w, guessed := false, guessed_by_team := none }) },
      StartResp.success)
  else
    (s, StartResp.onlyCreator)

/-- `/api/games/:id/start-turn`: requester must equal the computed
current actor (`undefined` when the team is empty never equals a
requester id); then an unguessed word is drawn, or `finished` is
reported when none remain. -/
def startTurn (s : GameState) (requester : String) (now : String) :
    GameState × StartTurnResp :=
  if some requester = currentActorId s then
    match s.words.find? (fun w => !w.guessed) with
    | none => (s, StartTurnResp.finished)
    | some w =>
      ({ s with game := { s.game with
            current_word := some w.word, turn_started_at := some now } },
        StartTurnResp.word w.word s.game.turn_duration)
  else
    (s, StartTurnResp.notYourTurn)

/-- The statement `UPDATE game_words SET guessed = 1, guessed_by_team = ?
WHERE game_id = ? AND word = ? AND guessed = 0` run by `/correct`:
every still-unguessed row holding `cw` becomes guessed by team `t`. -/
def markGuessed (ws : List GameWord) (cw : String) (t : Nat) : List GameWord :=
  ws.map (fun w =>
    if w.word = cw ∧ w.guessed = false then
      { w with guessed := true, guessed_by_team := some t }
    else w)

/-- `/api/games/:id/correct` from `src/api/index.ts`: requires a current
word; marks it guessed, increments the acting team's score, then either
finishes the game (score reached `winning_score`), reports
`no_more_words`, or draws the next unguessed word.  The requester is
never consulted. -/
def markCorrect (s : GameState) (_requester : String) :
    GameState × CorrectResp :=
  match s.game.current_word with
  | none => (s, CorrectResp.noWord)
  | some cw =>
    let words1 := markGuessed s.words cw s.game.current_team
    let newScore :=
      (if s.game.current_team = 1 then s.game.team1_score else s.game.team2_score) + 1
    let g1 :=
      if s.game.current_team = 1 then { s.game with team1_score := newScore }
      else { s.game with team2_score := newScore }
    if s.game.winning_score ≤ newScore then
      ({ s with
          game := { g1 with status := "finished", current_word := none },
          words := words1 },
        CorrectResp.gameOver s.game.current_team)
    else
      match words1.find? (fun w => !w.guessed) with
      | none =>
        ({ s with
            game := { g1 with current_word := none },
            words := words1 },
          CorrectResp.noMoreWords)
      | some nw =>
        ({ s with
            game := { g1 with current_word := some nw.word },
            words := words1 },
          CorrectResp.nextWord nw.word)

/-- `/api/games/:id/skip` (identical in both server versions): draws an
unguessed word different from `current_word || ''`; if none exists the
state is untouched and the current word echoed back.  Scores are never
touched and the requester never consulted. -/
def skip (s : GameState) (_requester : String) : GameState × SkipResp :=
  match s.words.find? (fun w => !w.guessed && w.word != s.game.current_word.getD "") with
  | none => (s, SkipResp.noOtherWords s.game.current_word)
  | some nw =>
    ({ s with game := { s.game with current_word := some nw.word } },
      SkipResp.word nw.word)

/-- `/api/games/:id/end-turn` from `src/api/index.ts`: flips
`current_team`, increments the acting team's actor counter, clears
`current_word` and `turn_started_at`.  The requester is never
consulted and there is no revocation in this version. -/
def endTurn (s : GameState) (_requester : String) : GameState × EndTurnResp :=
  let newTeam := if s.game.current_team = 1 then 2 else 1
  let g1 :=
    if s.game.current_team = 1 then
      { s.game with current_actor_index_t1 := s.game.current_actor_index_t1 + 1 }
    else
      { s.game with current_actor_index_t2 := s.game.current_actor_index_t2 + 1 }
  ({ s with game := { g1 with
      current_team := newTeam, current_word := none, turn_started_at := none } },
    EndTurnResp.ok newTeam)

/-- `/api/games/:id/end-turn` from `src/unnamed/part_002`: additionally
reads `revokePoints` from the body; `if (revokePoints && revokePoints > 0)`
the acting team's score becomes `Math.max(0, score - revokePoints)`;
then the same team flip / counter increment / word clear as in
`endTurn`. -/
def endTurnRevoke (s : GameState) (_requester : String)
    (revokePoints : Option Int) : GameState × EndTurnResp :=
  let g0 :=
    match revokePoints with
    | some a =>
      if 0 < a then
        if s.game.current_team = 1 then
          { s.game with team1_score := max 0 (s.game.team1_score - a) }
        else
          { s.game with team2_score := max 0 (s.game.team2_score - a) }
      else s.game
    | none => s.game
  let newTeam := if s.game.current_team = 1 then 2 else 1
  let g1 :=
    if s.game.current_team = 1 then
      { g0 with current_actor_index_t1 := g0.current_actor_index_t1 + 1 }
    else
      { g0 with current_actor_index_t2 := g0.current_actor_index_t2 + 1 }
  ({ s with game := { g1 with
      current_team := newTeam, current_word := none, turn_started_at := none } },
    EndTurnResp.ok newTeam)

/-- `/api/games/:id/end` (identical in both server versions): sets
status to `finished` and clears `current_word`, unconditionally — the
requester is never compared with `created_by`. -/
def endGame (s : GameState) (_requester : String) : GameState × EndResp :=
  ({ s with game := { s.game with status := "finished", current_word := none } },
    EndResp.success)

/-- The projection returned by `GET /api/games/:idOrCode`
(`src/api/index.ts`): the game row with `current_word` replaced by the
redacted value, plus the team rosters and the computed actor id. -/
structure GameView where
  game : Game
  team1_players : List GamePlayer
  team2_players : List GamePlayer
  current_actor_id : Option String
deriving DecidableEq, Repr

/-- `GET /api/games/:idOrCode`: the viewer is `req.user?.id` under
`optionalAuth` (absent when unauthenticated).  The actor index here is
`counter % Math.max(1, team.length)`, and
`isCurrentActor = viewer?.id === currentActorId` — in JS two
`undefined`s compare equal, modelled by equality of `Option String`. -/
def getGame (s : GameState) (viewer : Option String) : GameView :=
  let team1 := teamPlayers s 1
  let team2 := teamPlayers s 2
  let actorId :=
    if s.game.current_team = 1 then
      (team1[s.game.current_actor_index_t1 % Nat.max 1 team1.length]?).map
        (fun p => p.user_id)
    else
      (team2[s.game.current_actor_index_t2 % Nat.max 1 team2.length]?).map
        (fun p => p.user_id)
  let wordToShow :=
    if s.game.status = "playing" ∧ viewer = actorId then s.game.current_word
    else none
  { game := { s.game with current_word := wordToShow },
    team1_players := team1, team2_players := team2,
    current_actor_id := actorId }

/-- Replace a game's `current_word`; used to state that a view is
independent of the word. -/
def setWord (s : GameState) (w : Option String) : GameState :=
  { s with game := { s.game with current_word := w } }

/-- A baseline `games` row used to build concrete test states. -/
def sampleGame : Game :=
  { id := "g1", name := "Game", created_by := "alice",
    team1_name := "Team 1", team2_name := "Team 2",
    team1_score := 0, team2_score := 0, current_team := 1,
    current_actor_index_t1 := 0, current_actor_index_t2 := 0,
    turn_duration := 30, winning_score := 30, status := "playing",
    current_word := none, turn_started_at := none, share_code := "ABC123" }

/-- Concrete state for the C1 scenario: `team1_score = 2`, team 1 acting. -/
def stateC1 : GameState :=
  { game := { sampleGame with team1_score := 2 },
    players := [{ user_id := "alice", team := 1, turn_order := 1 }],
    words := [] }

/-- C1: for every game and every amount `a > 0` passed as
`revoke_points`, end_turn (the `part_002` version, the one that reads
`revokePoints`) sets the acting team's score to `max 0 (old - a)`,
leaves the other team's score unchanged, flips `current_team` to the
other team, and clears `current_word`. -/
theorem endTurnRevoke_decrements_flips_clears
    (s : GameState) (r : String) (a : Int) (ha : 0 < a) :
    ((endTurnRevoke s r (some a)).1.game.current_word = none)
    ∧ ((endTurnRevoke s r (some a)).2 =
        EndTurnResp.ok (if s.game.current_team = 1 then 2 else 1))
    ∧ (s.game.current_team = 1 →
        (endTurnRevoke s r (some a)).1.game.team1_score
            = max 0 (s.game.team1_score - a)
        ∧ (endTurnRevoke s r (some a)).1.game.team2_score = s.game.team2_score
        ∧ (endTurnRevoke s r (some a)).1.game.current_team = 2)
    ∧ (s.game.current_team ≠ 1 →
        (endTurnRevoke s r (some a)).1.game.team2_score
            = max 0 (s.game.team2_score - a)
        ∧ (endTurnRevoke s r (some a)).1.game.team1_score = s.game.team1_score
        ∧ (endTurnRevoke s r (some a)).1.game.current_team = 1) := by
  by_cases h : s.game.current_team = 1 <;>
    simp [endTurnRevoke, h, ha]

/-- C1 witness: the spec scenario — `end_turn` with `revoke_points = 2`
when `team1_score = 2` and team 1 acting leaves `team1_score = 0`
(floored) and `current_team = 2`. -/
theorem endTurnRevoke_scenario_witness :
    ((endTurnRevoke stateC1 "alice" (some 2)).1.game.team1_score = 0)
    ∧ ((endTurnRevoke stateC1 "alice" (some 2)).1.game.current_team = 2)
    ∧ ((endTurnRevoke stateC1 "alice" (some 2)).1.game.current_word = none) := by
  have h := endTurnRevoke_decrements_flips_clears stateC1 "alice" 2 (by decide)
  obtain ⟨hw, -, h1, -⟩ := h
  obtain ⟨ha, -, hb⟩ := h1 rfl
  refine ⟨?_, hb, hw⟩
  rw [ha]
  decide

/-- Concrete state for C5: team 1 is `[A, B, C]` with counter 0. -/
def stateC5 : GameState :=
  { game := sampleGame,
    players := [{ user_id := "A", team := 1, turn_order := 1 },
                { user_id := "B", team := 1, turn_order := 2 },
                { user_id := "C", team := 1, turn_order := 3 },
                { user_id := "D", team := 2, turn_order := 1 }],
    words := [] }

/-- C5: actor selection is `players[counter mod players.length]` on the
acting team's ordered list, and `end_turn` increments exactly the
acting team's counter by one, leaving the other team's counter
unchanged (so successive turns of one team walk its list round-robin,
however many turns the other team takes in between). -/
theorem roundRobin_actor_and_counter (s : GameState) (r : String) :
    (s.game.current_team = 1 → teamPlayers s 1 ≠ [] →
      (∃ h : s.game.current_actor_index_t1 % (teamPlayers s 1).length
                < (teamPlayers s 1).length,
        currentActorId s = some (((teamPlayers s 1).get
          ⟨s.game.current_actor_index_t1 % (teamPlayers s 1).length, h⟩).user_id))
      ∧ (endTurn s r).1.game.current_actor_index_t1 = s.game.current_actor_index_t1 + 1
      ∧ (endTurn s r).1.game.current_actor_index_t2 = s.game.current_actor_index_t2
      ∧ (endTurn s r).1.game.current_team = 2)
    ∧ (s.game.current_team = 2 → teamPlayers s 2 ≠ [] →
      (∃ h : s.game.current_actor_index_t2 % (teamPlayers s 2).length
                < (teamPlayers s 2).length,
        currentActorId s = some (((teamPlayers s 2).get
          ⟨s.game.current_actor_index_t2 % (teamPlayers s 2).length, h⟩).user_id))
      ∧ (endTurn s r).1.game.current_actor_index_t2 = s.game.current_actor_index_t2 + 1
      ∧ (endTurn s r).1.game.current_actor_index_t1 = s.game.current_actor_index_t1
      ∧ (endTurn s r).1.game.current_team = 1) := by
  constructor
  · intro h1 hne
    have hlt : s.game.current_actor_index_t1 % (teamPlayers s 1).length
        < (teamPlayers s 1).length :=
      Nat.mod_lt _ (List.length_pos.mpr hne)
    refine ⟨⟨hlt, ?_⟩, ?_, ?_, ?_⟩ <;>
      simp [currentActorId, endTurn, h1, List.getElem?_eq_getElem hlt,
        List.get_eq_getElem]
  · intro h2 hne
    have hlt : s.game.current_actor_index_t2 % (teamPlayers s 2).length
        < (teamPlayers s 2).length :=
      Nat.mod_lt _ (List.length_pos.mpr hne)
    refine ⟨⟨hlt, ?_⟩, ?_, ?_, ?_⟩ <;>
      simp [currentActorId, endTurn, h2, List.getElem?_eq_getElem hlt,
        List.get_eq_getElem]

/-- C5 witness: with team-1 players `[A, B, C]` and counter 0, the
actor is `A`, and ending the turn bumps team 1's counter to 1 while
team 2's stays 0. -/
theorem roundRobin_witness :
    currentActorId stateC5 = some "A"
    ∧ (endTurn stateC5 "A").1.game.current_actor_index_t1 = 1
    ∧ (endTurn stateC5 "A").1.game.current_actor_index_t2 = 0
    ∧ (endTurn stateC5 "A").1.game.current_team = 2 := by
  have h := roundRobin_actor_and_counter stateC5 "A"
  obtain ⟨h1, -⟩ := h
  obtain ⟨⟨hlt, heq⟩, h2, h3, h4⟩ := h1 rfl (by decide)
  refine ⟨?_, h2, h3, h4⟩
  rw [heq]
  rfl

/-- Concrete finished game for C2: creator `alice`, one unguessed word,
`alice` the computed current actor, no current word. -/
def stateC2 : GameState :=
  { game := { sampleGame with status := "finished" },
    players := [{ user_id := "alice", team := 1, turn_order := 1 }],
    words := [{ word := "cat", guessed := false, guessed_by_team := none }] }

/-- C2 counterexample: `finished` is not terminal — the creator calling
`start_game` on a finished game sets its status back to `playing`. -/
theorem finished_restart_counterexample :
    (startGame stateC2 "alice" ["dog"]).1.game.status = "playing"
    ∧ stateC2.game.status = "finished"
    ∧ "playing" ≠ "finished" := by
  decide

/-- C2 amended: no handler checks `status`.  On a finished game the
creator's `start_game` flips the status back to `playing`;
`mark_correct` is rejected only because `current_word` is null (and is
rejected exactly then, in any status, leaving the state unchanged);
and `start_turn` by the computed current actor succeeds and hands out a
word even though the game is finished. -/
theorem finished_no_status_guard (s : GameState) (r now : String)
    (batch : List String) (hfin : s.game.status = "finished") :
    (r = s.game.created_by → (startGame s r batch).1.game.status = "playing")
    ∧ (s.game.current_word = none → markCorrect s r = (s, CorrectResp.noWord))
    ∧ (some r = currentActorId s →
        ∀ w, s.words.find? (fun x => !x.guessed) = some w →
          (startTurn s r now).2 = StartTurnResp.word w.word s.game.turn_duration) := by
  refine ⟨?_, ?_, ?_⟩
  · intro hr
    simp [startGame, hr]
  · intro hcw
    simp [markCorrect, hcw]
  · intro hact w hfind
    simp [startTurn, ← hact, hfind]

/-- C2 witness: on the concrete finished game, restarting yields
`playing`, `mark_correct` is rejected without a word, and the actor's
`start_turn` succeeds with the remaining word. -/
theorem finished_no_status_guard_witness :
    ((startGame stateC2 "alice" ["dog"]).1.game.status = "playing")
    ∧ (markCorrect stateC2 "alice" = (stateC2, CorrectResp.noWord))
    ∧ ((startTurn stateC2 "alice" "t1").2 = StartTurnResp.word "cat" 30) := by
  have h := finished_no_status_guard stateC2 "alice" "t1" ["dog"] rfl
  obtain ⟨h1, h2, h3⟩ := h
  exact ⟨h1 rfl, h2 rfl, h3 (by decide) { word := "cat", guessed := false, guessed_by_team := none } rfl⟩

/-- Concrete playing game for C3 with creator `alice` and a word in
flight. -/
def stateC3 : GameState :=
  { game := { sampleGame with current_word := some "elephant" },
    players := [{ user_id := "alice", team := 1, turn_order := 1 }],
    words := [{ word := "elephant", guessed := false, guessed_by_team := none }] }

/-- C3 counterexample: `end_game` requested by `bob`, who is not the
creator (`alice`), succeeds and mutates the game — there is no
`NotCreator` rejection. -/
theorem endGame_nonCreator_counterexample :
    "bob" ≠ stateC3.game.created_by
    ∧ (endGame stateC3 "bob").2 = EndResp.success
    ∧ (endGame stateC3 "bob").1.game.status = "finished"
    ∧ (endGame stateC3 "bob").1 ≠ stateC3 := by
  decide

/-- C3 amended: `end_game` performs no creator check — for every
requester it succeeds, sets status to `finished` and clears
`current_word`, leaving every other field (scores, teams, counters,
players, words, `turn_started_at`) unchanged. -/
theorem endGame_unconditional (s : GameState) (r : String) :
    (endGame s r).2 = EndResp.success
    ∧ (endGame s r).1.game.status = "finished"
    ∧ (endGame s r).1.game.current_word = none
    ∧ (endGame s r).1.game.team1_score = s.game.team1_score
    ∧ (endGame s r).1.game.team2_score = s.game.team2_score
    ∧ (endGame s r).1.game.current_team = s.game.current_team
    ∧ (endGame s r).1.game.current_actor_index_t1 = s.game.current_actor_index_t1
    ∧ (endGame s r).1.game.current_actor_index_t2 = s.game.current_actor_index_t2
    ∧ (endGame s r).1.game.turn_started_at = s.game.turn_started_at
    ∧ (endGame s r).1.players = s.players
    ∧ (endGame s r).1.words = s.words := by
  simp [endGame]

/-- Concrete waiting game for C4: creator `alice` on team 1, team 2
empty, no words yet. -/
def stateC4 : GameState :=
  { game := { sampleGame with status := "waiting" },
    players := [{ user_id := "alice", team := 1, turn_order := 1 }],
    words := [] }

/-- C4 counterexample: team 2 is empty, yet the creator's `start_game`
succeeds, materializes the batch and moves the game to `playing` — the
claimed emptiness check does not exist. -/
theorem startGame_emptyTeam_counterexample :
    teamPlayers stateC4 2 = []
    ∧ (startGame stateC4 "alice" ["cat"]).2 = StartResp.success
    ∧ (startGame stateC4 "alice" ["cat"]).1.game.status = "playing"
    ∧ (startGame stateC4 "alice" ["cat"]).1.words
        = [{ word := "cat", guessed := false, guessed_by_team := none }] := by
  decide

/-- C4 amended: `start_game` checks only that the requester is the
creator.  For the creator it always succeeds — team emptiness is not
examined — appending the sampled batch as unguessed words and setting
status to `playing`, while leaving `current_team` and both rotation
counters unchanged (their creation defaults are 1, 0, 0); for anyone
else it fails with the only-creator error and changes nothing. -/
theorem startGame_creator_check_only (s : GameState) (r : String)
    (batch : List String) :
    (r ≠ s.game.created_by → startGame s r batch = (s, StartResp.onlyCreator))
    ∧ (r = s.game.created_by →
        (startGame s r batch).2 = StartResp.success
        ∧ (startGame s r batch).1.game.status = "playing"
        ∧ (startGame s r batch).1.game.current_team = s.game.current_team
        ∧ (startGame s r batch).1.game.current_actor_index_t1
            = s.game.current_actor_index_t1
        ∧ (startGame s r batch).1.game.current_actor_index_t2
            = s.game.current_actor_index_t2
        ∧ (startGame s r batch).1.words
            = s.words ++ batch.map (fun w =>
                { word := w, guessed := false, guessed_by_team := none })) := by
  constructor
  · intro hr
    have : ¬ s.game.created_by = r := fun h => hr h.symm
    simp [startGame, this]
  · intro hr
    simp [startGame, hr]

/-- C4 witness: on the concrete empty-team-2 game, `bob` is rejected
with no state change and creator `alice` succeeds. -/
theorem startGame_creator_check_only_witness :
    startGame stateC4 "bob" ["cat"] = (stateC4, StartResp.onlyCreator)
    ∧ (startGame stateC4 "alice" ["cat"]).2 = StartResp.success
    ∧ (startGame stateC4 "alice" ["cat"]).1.game.status = "playing" := by
  have hb := (startGame_creator_check_only stateC4 "bob" ["cat"]).1 (by decide)
  have ha := (startGame_creator_check_only stateC4 "alice" ["cat"]).2 rfl
  exact ⟨hb, ha.1, ha.2.1⟩

/-- Concrete state for C7: team 2 is acting but has no players. -/
def stateC7 : GameState :=
  { game := { sampleGame with current_team := 2 },
    players := [{ user_id := "alice", team := 1, turn_order := 1 }],
    words := [{ word := "cat", guessed := false, guessed_by_team := none }] }

/-- Concrete comparison state for C7: team 2 is acting with a player
(`dave`), and someone else requests the turn. -/
def stateC7b : GameState :=
  { game := { sampleGame with current_team := 2 },
    players := [{ user_id := "alice", team := 1, turn_order := 1 },
                { user_id := "dave", team := 2, turn_order := 1 }],
    words := [{ word := "cat", guessed := false, guessed_by_team := none }] }

/-- C7 counterexample: on an empty acting team, `start_turn` fails with
the generic `Not your turn to act` response — exactly the same response
a wrong requester gets on a populated team — so no distinct
`NoPlayersOnTeam` error exists in the code. -/
theorem startTurn_noPlayersOnTeam_counterexample :
    teamPlayers stateC7 2 = []
    ∧ startTurn stateC7 "alice" "t0" = (stateC7, StartTurnResp.notYourTurn)
    ∧ startTurn stateC7b "bob" "t0" = (stateC7b, StartTurnResp.notYourTurn) := by
  decide

/-- C7 amended: when the acting team has zero players the actor
computation totally evaluates to `none` (JS indexes by `NaN` and gets
`undefined`; no crash), and `start_turn` fails for every requester with
the generic not-your-turn error, leaving the game unchanged. -/
theorem startTurn_emptyTeam_total (s : GameState) (r now : String)
    (ht : s.game.current_team = 1 ∨ s.game.current_team = 2)
    (hempty : teamPlayers s s.game.current_team = []) :
    currentActorId s = none
    ∧ startTurn s r now = (s, StartTurnResp.notYourTurn) := by
  have hactor : currentActorId s = none := by
    rcases ht with h | h <;> rw [h] at hempty <;>
      simp [currentActorId, h, hempty]
  exact ⟨hactor, by simp [startTurn, hactor]⟩

/-- C7 witness: the empty-team-2 game has no actor and `start_turn`
fails without mutating. -/
theorem startTurn_emptyTeam_total_witness :
    currentActorId stateC7 = none
    ∧ startTurn stateC7 "alice" "t0" = (stateC7, StartTurnResp.notYourTurn) :=
  startTurn_emptyTeam_total stateC7 "alice" "t0" (Or.inr rfl) (by decide)

/-- Concrete state for C8: the only unguessed word is the current one. -/
def stateC8 : GameState :=
  { game := { sampleGame with current_word := some "cat" },
    players := [{ user_id := "alice", team := 1, turn_order := 1 }],
    words := [{ word := "cat", guessed := false, guessed_by_team := none },
              { word := "dog", guessed := true, guessed_by_team := some 1 }] }

/-- Concrete state for C8's witness, with an alternative available. -/
def stateC8b : GameState :=
  { game := { sampleGame with current_word := some "cat" },
    players := [{ user_id := "alice", team := 1, turn_order := 1 }],
    words := [{ word := "cat", guessed := false, guessed_by_team := none },
              { word := "dog", guessed := false, guessed_by_team := none }] }

/-- C8: `skip` never changes either score; when an unguessed word other
than `current_word` exists it swaps `current_word` to such a word, and
when every unguessed word equals the current one (in particular when
the only remaining unguessed word is the current one) it reports
no-other-words and leaves the whole state unchanged. -/
theorem skip_spec (s : GameState) (r : String) :
    ((skip s r).1.game.team1_score = s.game.team1_score
      ∧ (skip s r).1.game.team2_score = s.game.team2_score)
    ∧ ((∃ w ∈ s.words, w.guessed = false ∧ w.word ≠ s.game.current_word.getD "") →
        ∃ w, w ∈ s.words ∧ w.guessed = false
          ∧ w.word ≠ s.game.current_word.getD ""
          ∧ skip s r =
              ({ s with game := { s.game with current_word := some w.word } },
                SkipResp.word w.word))
    ∧ ((∀ w ∈ s.words, w.guessed = false → w.word = s.game.current_word.getD "") →
        skip s r = (s, SkipResp.noOtherWords s.game.current_word)) := by
  refine ⟨?_, ?_, ?_⟩
  · cases hfind : s.words.find?
        (fun w => !w.guessed && w.word != s.game.current_word.getD "") <;>
      simp [skip, hfind]
  · rintro ⟨w, hw, hg, hne⟩
    cases hfind : s.words.find?
        (fun w => !w.guessed && w.word != s.game.current_word.getD "") with
    | none =>
      have hpw : (!w.guessed && w.word != s.game.current_word.getD "") = true := by
        simp only [Bool.and_eq_true, Bool.not_eq_true', bne_iff_ne]
        exact ⟨hg, hne⟩
      exact absurd hpw (List.find?_eq_none.mp hfind w hw)
    | some nw =>
      have hp := List.find?_some hfind
      have hmem := List.mem_of_find?_eq_some hfind
      simp only [Bool.and_eq_true, Bool.not_eq_true', bne_iff_ne] at hp
      exact ⟨nw, hmem, hp.1, hp.2, by simp [skip, hfind]⟩
  · intro hall
    have hfind : s.words.find?
        (fun w => !w.guessed && w.word != s.game.current_word.getD "") = none := by
      refine List.find?_eq_none.mpr (fun x hx hpx => ?_)
      simp only [Bool.and_eq_true, Bool.not_eq_true', bne_iff_ne] at hpx
      exact hpx.2 (hall x hx hpx.1)
    simp [skip, hfind]

/-- C8 witness: with an alternative (`dog`) available, `skip` swaps to
it without touching the scores; with `cat` the only unguessed word and
also the current word, `skip` changes nothing. -/
theorem skip_spec_witness :
    ((skip stateC8b "alice").1.game.team1_score = stateC8b.game.team1_score)
    ∧ (∃ w, w ∈ stateC8b.words ∧ w.guessed = false
        ∧ w.word ≠ stateC8b.game.current_word.getD ""
        ∧ skip stateC8b "alice" =
            ({ stateC8b with
                game := { stateC8b.game with current_word := some w.word } },
              SkipResp.word w.word))
    ∧ skip stateC8 "alice" = (stateC8, SkipResp.noOtherWords (some "cat")) := by
  refine ⟨(skip_spec stateC8b "alice").1.1, ?_, ?_⟩
  · exact (skip_spec stateC8b "alice").2.1
      ⟨{ word := "dog", guessed := false, guessed_by_team := none },
        by decide, rfl, by decide⟩
  · exact (skip_spec stateC8 "alice").2.2 (by decide)

/-- After the `/correct` word update, every row holding the guessed
word is marked guessed. -/
theorem markGuessed_covers (ws : List GameWord) (cw : String) (t : Nat) :
    ∀ w ∈ markGuessed ws cw t, w.word = cw → w.guessed = true := by
  intro w hw
  simp only [markGuessed, List.mem_map] at hw
  obtain ⟨x, hx, rfl⟩ := hw
  by_cases hc : x.word = cw ∧ x.guessed = false
  · simp [hc]
  · simp only [if_neg hc]
    intro hxw
    rcases not_and_or.mp hc with h | h
    · exact absurd hxw h
    · simpa using h

/-- Concrete state for C6's witness: `cat` in flight, `dog` still
available, team 1 acting at score 0, threshold 30. -/
def stateC6 : GameState :=
  { game := { sampleGame with current_word := some "cat" },
    players := [{ user_id := "alice", team := 1, turn_order := 1 }],
    words := [{ word := "cat", guessed := false, guessed_by_team := none },
              { word := "dog", guessed := false, guessed_by_team := none }] }

/-- C6: with a current word set, `mark_correct` marks that word guessed
and increments the acting team's score by one; if the new score reaches
`winning_score` the game finishes with the acting team as winner and the
word cleared; otherwise, if every word is now guessed it clears the word
and reports no-more-words, and else it assigns some still-unguessed word
as the new `current_word`.  With no current word it is rejected with no
state change. -/
theorem markCorrect_spec (s : GameState) (r : String) :
    (s.game.current_word = none → markCorrect s r = (s, CorrectResp.noWord))
    ∧ (∀ cw, s.game.current_word = some cw →
        ((markCorrect s r).1.words = markGuessed s.words cw s.game.current_team)
        ∧ (∀ w ∈ markGuessed s.words cw s.game.current_team,
            w.word = cw → w.guessed = true)
        ∧ (s.game.current_team = 1 →
            (markCorrect s r).1.game.team1_score = s.game.team1_score + 1
            ∧ (markCorrect s r).1.game.team2_score = s.game.team2_score)
        ∧ (s.game.current_team ≠ 1 →
            (markCorrect s r).1.game.team2_score = s.game.team2_score + 1
            ∧ (markCorrect s r).1.game.team1_score = s.game.team1_score)
        ∧ (s.game.winning_score ≤
              (if s.game.current_team = 1 then s.game.team1_score
               else s.game.team2_score) + 1 →
            (markCorrect s r).1.game.status = "finished"
            ∧ (markCorrect s r).1.game.current_word = none
            ∧ (markCorrect s r).2 = CorrectResp.gameOver s.game.current_team)
        ∧ ((if s.game.current_team = 1 then s.game.team1_score
              else s.game.team2_score) + 1 < s.game.winning_score →
            ((∀ w ∈ markGuessed s.words cw s.game.current_team, w.guessed = true) →
              (markCorrect s r).1.game.current_word = none
              ∧ (markCorrect s r).2 = CorrectResp.noMoreWords)
            ∧ ((∃ w ∈ markGuessed s.words cw s.game.current_team, w.guessed = false) →
              ∃ nw, nw ∈ markGuessed s.words cw s.game.current_team
                ∧ nw.guessed = false
                ∧ (markCorrect s r).1.game.current_word = some nw.word
                ∧ (markCorrect s r).2 = CorrectResp.nextWord nw.word))) := by
  refine ⟨fun hcw => by simp [markCorrect, hcw], ?_⟩
  intro cw hcw
  by_cases ht : s.game.current_team = 1
  · by_cases hwin : s.game.winning_score ≤ s.game.team1_score + 1
    · refine ⟨?_, markGuessed_covers s.words cw s.game.current_team, ?_, ?_, ?_, ?_⟩
      · simp [markCorrect, hcw, ht, hwin]
      · intro _
        constructor <;> simp [markCorrect, hcw, ht, hwin]
      · intro h
        exact absurd ht h
      · intro _
        refine ⟨?_, ?_, ?_⟩ <;> simp [markCorrect, hcw, ht, hwin]
      · intro hlt
        rw [if_pos ht] at hlt
        exact absurd hwin (not_le.mpr hlt)
    · cases hfind : (markGuessed s.words cw 1).find? (fun w => !w.guessed) with
      | none =>
        refine ⟨?_, markGuessed_covers s.words cw s.game.current_team, ?_, ?_, ?_, ?_⟩
        · simp [markCorrect, hcw, ht, hwin, hfind]
        · intro _
          constructor <;> simp [markCorrect, hcw, ht, hwin, hfind]
        · intro h
          exact absurd ht h
        · intro hw
          rw [if_pos ht] at hw
          exact absurd hw hwin
        · intro _
          refine ⟨fun _ => ?_, fun hex => ?_⟩
          · constructor <;> simp [markCorrect, hcw, ht, hwin, hfind]
          · obtain ⟨w, hw, hg⟩ := hex
            rw [ht] at hw
            have hpw := List.find?_eq_none.mp hfind w hw
            simp [hg] at hpw
      | some nw =>
        refine ⟨?_, markGuessed_covers s.words cw s.game.current_team, ?_, ?_, ?_, ?_⟩
        · simp [markCorrect, hcw, ht, hwin, hfind]
        · intro _
          constructor <;> simp [markCorrect, hcw, ht, hwin, hfind]
        · intro h
          exact absurd ht h
        · intro hw
          rw [if_pos ht] at hw
          exact absurd hw hwin
        · intro _
          have hp := List.find?_some hfind
          have hmem := List.mem_of_find?_eq_some hfind
          simp only [Bool.not_eq_true'] at hp
          refine ⟨fun hall => ?_, fun _ => ?_⟩
          · exact absurd (hall nw (by rw [ht]; exact hmem)) (by simp [hp])
          · exact ⟨nw, by rw [ht]; exact hmem, hp,
              by simp [markCorrect, hcw, ht, hwin, hfind],
              by simp [markCorrect, hcw, ht, hwin, hfind]⟩
  · by_cases hwin : s.game.winning_score ≤ s.game.team2_score + 1
    · refine ⟨?_, markGuessed_covers s.words cw s.game.current_team, ?_, ?_, ?_, ?_⟩
      · simp [markCorrect, hcw, ht, hwin]
      · intro h
        exact absurd h ht
      · intro _
        constructor <;> simp [markCorrect, hcw, ht, hwin]
      · intro _
        refine ⟨?_, ?_, ?_⟩ <;> simp [markCorrect, hcw, ht, hwin]
      · intro hlt
        rw [if_neg ht] at hlt
        exact absurd hwin (not_le.mpr hlt)
    · cases hfind : (markGuessed s.words cw s.game.current_team).find?
          (fun w => !w.guessed) with
      | none =>
        refine ⟨?_, markGuessed_covers s.words cw s.game.current_team, ?_, ?_, ?_, ?_⟩
        · simp [markCorrect, hcw, ht, hwin, hfind]
        · intro h
          exact absurd h ht
        · intro _
          constructor <;> simp [markCorrect, hcw, ht, hwin, hfind]
        · intro hw
          rw [if_neg ht] at hw
          exact absurd hw hwin
        · intro _
          refine ⟨fun _ => ?_, fun hex => ?_⟩
          · constructor <;> simp [markCorrect, hcw, ht, hwin, hfind]
          · obtain ⟨w, hw, hg⟩ := hex
            have hpw := List.find?_eq_none.mp hfind w hw
            simp [hg] at hpw
      | some nw =>
        refine ⟨?_, markGuessed_covers s.words cw s.game.current_team, ?_, ?_, ?_, ?_⟩
        · simp [markCorrect, hcw, ht, hwin, hfind]
        · intro h
          exact absurd h ht
        · intro _
          constructor <;> simp [markCorrect, hcw, ht, hwin, hfind]
        · intro hw
          rw [if_neg ht] at hw
          exact absurd hw hwin
        · intro _
          have hp := List.find?_some hfind
          have hmem := List.mem_of_find?_eq_some hfind
          simp only [Bool.not_eq_true'] at hp
          refine ⟨fun hall => ?_, fun _ => ?_⟩
          · exact absurd (hall nw hmem) (by simp [hp])
          · exact ⟨nw, hmem, hp,
              by simp [markCorrect, hcw, ht, hwin, hfind],
              by simp [markCorrect, hcw, ht, hwin, hfind]⟩

/-- C6 witness: on the concrete state, `cat` gets marked guessed, team
1's score becomes 1, and some still-unguessed word (`dog`) becomes the
new current word; with no current word the call is rejected
unchanged. -/
theorem markCorrect_spec_witness :
    ((markCorrect stateC6 "zoe").1.game.team1_score = 1)
    ∧ (∃ nw, nw ∈ markGuessed stateC6.words "cat" stateC6.game.current_team
        ∧ nw.guessed = false
        ∧ (markCorrect stateC6 "zoe").1.game.current_word = some nw.word
        ∧ (markCorrect stateC6 "zoe").2 = CorrectResp.nextWord nw.word)
    ∧ markCorrect stateC2 "zoe" = (stateC2, CorrectResp.noWord) := by
  have h := markCorrect_spec stateC6 "zoe"
  have h2 := (h.2 "cat" rfl)
  refine ⟨?_, ?_, (markCorrect_spec stateC2 "zoe").1 rfl⟩
  · have := (h2.2.2.1 rfl).1
    simpa using this
  · exact (h2.2.2.2.2.2 (by decide)).2
      ⟨{ word := "dog", guessed := false, guessed_by_team := none },
        by decide, rfl⟩

/-- Replacing `current_word` leaves the queried rosters unchanged. -/
theorem teamPlayers_setWord (s : GameState) (w : Option String) (t : Nat) :
    teamPlayers (setWord s w) t = teamPlayers s t := rfl

/-- Replacing `current_word` leaves `status` unchanged. -/
theorem setWord_status (s : GameState) (w : Option String) :
    (setWord s w).game.status = s.game.status := rfl

/-- Replacing `current_word` leaves `current_team` unchanged. -/
theorem setWord_current_team (s : GameState) (w : Option String) :
    (setWord s w).game.current_team = s.game.current_team := rfl

/-- Replacing `current_word` leaves team 1's rotation counter unchanged. -/
theorem setWord_idx1 (s : GameState) (w : Option String) :
    (setWord s w).game.current_actor_index_t1 = s.game.current_actor_index_t1 := rfl

/-- Replacing `current_word` leaves team 2's rotation counter unchanged. -/
theorem setWord_idx2 (s : GameState) (w : Option String) :
    (setWord s w).game.current_actor_index_t2 = s.game.current_actor_index_t2 := rfl

/-- Overriding `current_word` after `setWord` is the same as overriding
it on the original game row. -/
theorem setWord_game_update (s : GameState) (w x : Option String) :
    { (setWord s w).game with current_word := x }
      = { s.game with current_word := x } := rfl

/-- Concrete state for C9's counterexample: a playing game whose acting
team 2 has no players but whose `current_word` is set. -/
def stateC9x : GameState :=
  { game := { sampleGame with current_team := 2, current_word := some "elephant" },
    players := [{ user_id := "alice", team := 1, turn_order := 1 }],
    words := [{ word := "elephant", guessed := false, guessed_by_team := none }] }

/-- Concrete state for C9's witness: `alice` is the actor, `bob` a
non-actor viewer. -/
def stateC9 : GameState :=
  { game := { sampleGame with current_word := some "elephant" },
    players := [{ user_id := "alice", team := 1, turn_order := 1 },
                { user_id := "bob", team := 2, turn_order := 1 }],
    words := [{ word := "elephant", guessed := false, guessed_by_team := none }] }

/-- C9 counterexample: on a playing game whose acting team is empty,
`get_game` computes no current actor (`current_actor_id = none`), yet an
unauthenticated viewer — who is certainly not the current actor —
receives the un-redacted `current_word`, because in JS
`undefined === undefined` holds in the `isCurrentActor` test. -/
theorem getGame_leak_counterexample :
    (getGame stateC9x none).current_actor_id = none
    ∧ (getGame stateC9x none).game.current_word = some "elephant" := by
  decide

/-- C9 amended: `current_word` is redacted to null for every viewer
whose optional id differs from the computed `current_actor_id` (absent
ids comparing equal, as JS `===` does), and for such viewers the whole
`get_game` output is identical for any two values of `current_word`. -/
theorem getGame_redaction (s : GameState) (viewer : Option String)
    (h : viewer ≠ (getGame s viewer).current_actor_id) :
    (getGame s viewer).game.current_word = none
    ∧ ∀ w1 w2, getGame (setWord s w1) viewer = getGame (setWord s w2) viewer := by
  simp only [getGame] at h
  constructor
  · simp [getGame, h]
  · intro w1 w2
    simp only [getGame, teamPlayers_setWord, setWord_status, setWord_current_team,
      setWord_idx1, setWord_idx2, setWord_game_update]
    simp [h, setWord]

/-- C9 witness: non-actor `bob` sees a null word, and his view does not
depend on which word is in flight. -/
theorem getGame_redaction_witness :
    (getGame stateC9 (some "bob")).game.current_word = none
    ∧ getGame (setWord stateC9 (some "cat")) (some "bob")
        = getGame (setWord stateC9 (some "dog")) (some "bob") := by
  have h := getGame_redaction stateC9 (some "bob") (by decide)
  exact ⟨h.1, h.2 (some "cat") (some "dog")⟩

/-- Concrete state for C10: creator `alice`, actor `alice`, a word in
flight, `bob` and `carol` arbitrary other authenticated users. -/
def stateC10 : GameState :=
  { game := { sampleGame with current_word := some "cat" },
    players := [{ user_id := "alice", team := 1, turn_order := 1 },
                { user_id := "dave", team := 2, turn_order := 1 }],
    words := [{ word := "cat", guessed := false, guessed_by_team := none },
              { word := "dog", guessed := false, guessed_by_team := none }] }

/-- C10: `mark_correct`, `skip` and `end_turn` (both versions) never
consult the requester — any two authenticated requesters produce the
same state change and response — while `start_turn` rejects any
requester other than the computed current actor and `start_game`
rejects any requester other than the creator, each without mutating. -/
theorem handlers_requester_independent (s : GameState) (r1 r2 : String)
    (rp : Option Int) (b : List String) (now : String) :
    markCorrect s r1 = markCorrect s r2
    ∧ skip s r1 = skip s r2
    ∧ endTurn s r1 = endTurn s r2
    ∧ endTurnRevoke s r1 rp = endTurnRevoke s r2 rp
    ∧ endGame s r1 = endGame s r2
    ∧ (some r1 ≠ currentActorId s → startTurn s r1 now = (s, StartTurnResp.notYourTurn))
    ∧ (r1 ≠ s.game.created_by → startGame s r1 b = (s, StartResp.onlyCreator)) := by
  refine ⟨rfl, rfl, rfl, rfl, rfl, ?_, ?_⟩
  · intro h
    simp [startTurn, h]
  · intro h
    have hne : ¬ s.game.created_by = r1 := fun hh => h hh.symm
    simp [startGame, hne]

/-- C10 witness: on the concrete game, opposing-team member `dave` and
non-player `carol` drive `mark_correct`, `skip` and `end_turn` to the
same outcome, while `start_turn` and `start_game` reject `bob`. -/
theorem handlers_requester_independent_witness :
    markCorrect stateC10 "dave" = markCorrect stateC10 "carol"
    ∧ skip stateC10 "dave" = skip stateC10 "carol"
    ∧ endTurn stateC10 "dave" = endTurn stateC10 "carol"
    ∧ endTurnRevoke stateC10 "dave" (some 1) = endTurnRevoke stateC10 "carol" (some 1)
    ∧ startTurn stateC10 "bob" "t0" = (stateC10, StartTurnResp.notYourTurn)
    ∧ startGame stateC10 "bob" ["x"] = (stateC10, StartResp.onlyCreator) := by
  have h := handlers_requester_independent stateC10 "dave" "carol"
    (some 1) ["x"] "t0"
  have hb := handlers_requester_independent stateC10 "bob" "carol"
    (some 1) ["x"] "t0"
  exact ⟨h.1, h.2.1, h.2.2.1, h.2.2.2.1,
    hb.2.2.2.2.2.1 (by decide), hb.2.2.2.2.2.2 (by decide)⟩
